import Mathlib

/-!
Verification of the GTE embeddings service
(`src/python/embeddings-service/{main.py, model.py}`).

The transformer inference pipeline (tokenizer + forward pass + CLS pooling +
L2 normalization) is an external black box; it is modelled as opaque
function fields of the adapter that may fail (`Except String`).  Everything
written in the repository itself — the empty-text sentinel policy, the
batch partition / placeholder-fill reconciliation, the error translation,
the health endpoint, and the adapter's empty-batch short-circuit — is
translated faithfully below.  Vector components are modelled as rationals
(the claims under study concern structure: lengths, ordering, sentinel
placement, error propagation — not floating-point arithmetic).  Wall-clock
timing (`took_ms`) is not modelled and is fixed to `0`.
-/

set_option autoImplicit false

/-- An embedding vector: ordered sequence of scalars (floats in the source;
modelled as rationals). -/
abbrev Vec := List ℚ

/-- Python's `str.strip()`: drop leading and trailing whitespace.  (Lean's
own `String.trim` is extensionally the same but is built on `Substring`
accessors that the kernel cannot evaluate; this char-list form is used so
concrete instances reduce.) -/
def pyStrip (t : String) : String :=
  String.mk (((t.toList.dropWhile Char.isWhitespace).reverse.dropWhile
    Char.isWhitespace).reverse)

/-- `model.py`, class `GTEModel`.  `model_name` is the configured model id.
`embedFn` models the black-box single-text inference pipeline of
`GTEModel.embed` (lines 58–69: tokenize, forward pass, CLS pooling,
normalize) which may raise; `batchFn` models the same pipeline for a batch
(`GTEModel.embed_batch` lines 75–87, i.e. the part after the empty-input
short-circuit). -/
structure GTEModel where
  model_name : String
  embedFn : String → Except String Vec
  batchFn : List String → Except String (List Vec)

/-- `model.py` line 56: `self.dimensions: int = 768` — the constructor always
sets the known dimension of gte-multilingual-base. -/
def GTEModel.dimensions (_m : GTEModel) : Nat := 768

/-- `model.py` lines 58–69, `GTEModel.embed`: the whole body is the
black-box inference pipeline. -/
def GTEModel.embed (m : GTEModel) (text : String) : Except String Vec :=
  m.embedFn text

/-- `model.py` lines 71–87, `GTEModel.embed_batch`: `if not texts: return
np.empty((0, self.dimensions))` — the empty input sequence returns an empty
result immediately, without invoking the model; otherwise the black-box
batch pipeline runs. -/
def GTEModel.embed_batch (m : GTEModel) (texts : List String) : Except String (List Vec) :=
  if texts.isEmpty then .ok []
  else m.batchFn texts

/-- `main.py` lines 17–19, request body of `/embed`. -/
structure EmbedRequest where
  text : String

/-- `main.py` lines 22–26, response body of `/embed`.  `took_ms` is wall
clock time in the source; timing is not modelled, handlers set it to 0. -/
structure EmbedResponse where
  embedding : Vec
  dims : Nat
  model : String
  took_ms : ℚ
deriving DecidableEq

/-- `main.py` lines 29–30, request body of `/embed_batch` (`min_items=1` is
a validation-layer constraint; claims carry nonemptiness as a hypothesis). -/
structure BatchRequest where
  texts : List String

/-- `main.py` lines 33–37, response body of `/embed_batch`. -/
structure BatchResponse where
  embeddings : List Vec
  dims : Nat
  model : String
  took_ms : ℚ
deriving DecidableEq

/-- A FastAPI `HTTPException` as raised by the handlers (status code and
detail string). -/
structure HTTPException where
  status_code : Nat
  detail : String
deriving DecidableEq

/-- `main.py` response of `/health` (line 49). -/
structure HealthResponse where
  status : String
  model : Option String
  dims : Nat
deriving DecidableEq

/-- The sentinel empty vector built at `main.py` lines 63–64 and 97–98:
`vec_list = [0.0] * dims; vec_list[0] = 1.0` — the unit vector e1. -/
def sentinelVec (dims : Nat) : Vec :=
  (List.replicate dims (0 : ℚ)).set 0 1

/-- `main.py` lines 47–49, the `/health` handler: always status `"ok"`, the
model name when the global model is loaded (`None` otherwise), and the
hard-coded dimension 768. -/
def health (_model : Option GTEModel) : HealthResponse :=
  { status := "ok"
    model := _model.map (fun m => m.model_name)
    dims := 768 }

/-- `main.py` lines 52–81, the `/embed` handler.  A missing model is
rejected with 503 before anything else; empty / whitespace-only text
returns the sentinel vector without touching the adapter; otherwise the
adapter runs and any failure becomes a 500 carrying the cause text. -/
def embed (_model : Option GTEModel) (req : EmbedRequest) :
    Except HTTPException EmbedResponse :=
  match _model with
  | none => .error ⟨503, "Model not loaded"⟩
  | some m =>
    let text := req.text
    if pyStrip text = "" then
      .ok { embedding := sentinelVec m.dimensions
            dims := m.dimensions
            model := m.model_name
            took_ms := 0 }
    else
      match m.embed text with
      | .error e => .error ⟨500, "Failed to compute embedding: " ++ e⟩
      | .ok vec =>
        .ok { embedding := vec
              dims := m.dimensions
              model := m.model_name
              took_ms := 0 }

/-- `main.py` lines 95–103, the partition loop of `embed_batch`: walking
`texts` from index `idx`, build the `embeddings` list (sentinel for blank
entries, `[]` placeholder for real ones), the `to_compute` list of real
texts in order, and the `positions` list of their indices in order. -/
def partitionTexts (dims : Nat) : List String → Nat → List Vec × List String × List Nat
  | [], _ => ([], [], [])
  | t :: ts, idx =>
    let r := partitionTexts dims ts (idx + 1)
    if pyStrip t = "" then
      (sentinelVec dims :: r.1, r.2.1, r.2.2)
    else
      ([] :: r.1, t :: r.2.1, idx :: r.2.2)

/-- `main.py` lines 106–109, the fill loop of `embed_batch`: for each stored
position, overwrite the placeholder with `computed[comp_idx]` and advance
`comp_idx`.  Indexing past the end of `computed` raises (IndexError in the
source), modelled as an error result. -/
def fillLoop (computed : List Vec) : List Vec → List Nat → Nat → Except String (List Vec)
  | es, [], _ => .ok es
  | es, pos :: rest, comp_idx =>
    match computed.get? comp_idx with
    | none => .error "index out of bounds"
    | some v => fillLoop computed (es.set pos v) rest (comp_idx + 1)

/-- `main.py` lines 83–119, the `/embed_batch` handler.  A missing model is
rejected with 503; the partition loop splits the batch; if any real entries
exist the adapter is invoked once on them and its results are distributed
back by the fill loop; any exception in the `try` block becomes a 500
carrying the cause text. -/
def embed_batch (_model : Option GTEModel) (req : BatchRequest) :
    Except HTTPException BatchResponse :=
  match _model with
  | none => .error ⟨503, "Model not loaded"⟩
  | some m =>
    let p := partitionTexts m.dimensions req.texts 0
    let embeddings := p.1
    let to_compute := p.2.1
    let positions := p.2.2
    if to_compute.isEmpty then
      .ok { embeddings := embeddings
            dims := m.dimensions
            model := m.model_name
            took_ms := 0 }
    else
      match m.embed_batch to_compute with
      | .error e => .error ⟨500, "Failed to compute embeddings: " ++ e⟩
      | .ok computed =>
        match fillLoop computed embeddings positions 0 with
        | .error e => .error ⟨500, "Failed to compute embeddings: " ++ e⟩
        | .ok vecs =>
          .ok { embeddings := vecs
                dims := m.dimensions
                model := m.model_name
                took_ms := 0 }

/-- Number of real (non-blank) entries of a text list. -/
def realCount : List String → Nat
  | [] => 0
  | t :: ts => (if pyStrip t = "" then 0 else 1) + realCount ts

/-- The pure merge the batch reconciliation is supposed to compute: blank
entries become the sentinel, real entries consume `computed` in order
starting at index `k`. -/
def reassembleFrom (dims : Nat) (computed : List Vec) : List String → Nat → List Vec
  | [], _ => []
  | t :: ts, k =>
    if pyStrip t = "" then
      sentinelVec dims :: reassembleFrom dims computed ts k
    else
      computed.getD k [] :: reassembleFrom dims computed ts (k + 1)

/-- A concrete adapter for witnesses: inference always succeeds and returns
a fixed 768-long vector per input. -/
def demoVec : Vec := List.replicate 768 (1 : ℚ)

/-- Witness model whose black-box pipeline always succeeds. -/
def demoModel : GTEModel :=
  { model_name := "Alibaba-NLP/gte-multilingual-base"
    embedFn := fun _t => .ok demoVec
    batchFn := fun ts => .ok (ts.map (fun _t => demoVec)) }

/-- Witness model whose black-box pipeline always fails. -/
def failingModel : GTEModel :=
  { model_name := "Alibaba-NLP/gte-multilingual-base"
    embedFn := fun _t => .error "device fault"
    batchFn := fun _ts => .error "device fault" }

/-- Witness model whose batch pipeline returns too few vectors. -/
def shortModel : GTEModel :=
  { model_name := "Alibaba-NLP/gte-multilingual-base"
    embedFn := fun _t => .ok demoVec
    batchFn := fun _ts => .ok [] }

/-- Stand-in for the model's vector for `"hello"` in the mixed-batch witness. -/
def vHello : Vec := [1, 2, 3]

/-- Stand-in for the model's vector for `"world"` in the mixed-batch witness. -/
def vWorld : Vec := [4, 5, 6]

/-- Witness model for the mixed-batch scenario: the batch pipeline returns
one vector per submitted real text, `vHello` then `vWorld`. -/
def mixedModel : GTEModel :=
  { model_name := "Alibaba-NLP/gte-multilingual-base"
    embedFn := fun _t => .ok vHello
    batchFn := fun _ts => .ok [vHello, vWorld] }

/-- The adapter contract of spec §4.1: `dims` (768) matches the actual
output width of every vector the black-box pipelines produce. -/
def GTEModel.WellDimmed (m : GTEModel) : Prop :=
  (∀ t v, m.embedFn t = .ok v → v.length = 768) ∧
  (∀ ts vs, m.batchFn ts = .ok vs → ∀ v ∈ vs, v.length = 768)

/-! ### Lemmas about the partition and fill loops -/

theorem sentinelVec_length (d : Nat) : (sentinelVec d).length = d := by
  simp [sentinelVec]

theorem partitionTexts_fst_length (d : Nat) (ts : List String) (i : Nat) :
    ((partitionTexts d ts i).1).length = ts.length := by
  induction ts generalizing i with
  | nil => rfl
  | cons t ts ih =>
    by_cases h : pyStrip t = "" <;> simp [partitionTexts, h, ih]

theorem partitionTexts_to_compute_length (d : Nat) (ts : List String) (i : Nat) :
    ((partitionTexts d ts i).2.1).length = realCount ts := by
  induction ts generalizing i with
  | nil => rfl
  | cons t ts ih =>
    by_cases h : pyStrip t = ""
    · simp [partitionTexts, realCount, h, ih]
    · simp [partitionTexts, realCount, h, ih]
      omega

theorem partitionTexts_positions_length (d : Nat) (ts : List String) (i : Nat) :
    ((partitionTexts d ts i).2.2).length = realCount ts := by
  induction ts generalizing i with
  | nil => rfl
  | cons t ts ih =>
    by_cases h : pyStrip t = ""
    · simp [partitionTexts, realCount, h, ih]
    · simp [partitionTexts, realCount, h, ih]
      omega

theorem partitionTexts_fst_shift (d : Nat) (ts : List String) (j : Nat) :
    (partitionTexts d ts j).1 = (partitionTexts d ts 0).1 := by
  induction ts generalizing j with
  | nil => rfl
  | cons t ts ih =>
    by_cases h : pyStrip t = "" <;> simp [partitionTexts, h, ih, ih 1]

theorem partitionTexts_to_compute_shift (d : Nat) (ts : List String) (j : Nat) :
    (partitionTexts d ts j).2.1 = (partitionTexts d ts 0).2.1 := by
  induction ts generalizing j with
  | nil => rfl
  | cons t ts ih =>
    by_cases h : pyStrip t = "" <;> simp [partitionTexts, h, ih, ih 1]

theorem partitionTexts_positions_shift (d : Nat) (ts : List String) (j : Nat) :
    (partitionTexts d ts j).2.2 = ((partitionTexts d ts 0).2.2).map (fun x => x + j) := by
  have hmm : ∀ (l : List Nat) (a b : Nat),
      (l.map (fun x => x + a)).map (fun x => x + b) = l.map (fun x => x + (a + b)) := by
    intro l a b
    rw [List.map_map]
    apply List.map_congr_left
    intro x _
    simp [Function.comp]
    omega
  induction ts generalizing j with
  | nil => rfl
  | cons t ts ih =>
    by_cases h : pyStrip t = "" <;>
      simp [partitionTexts, h, ih (j + 1), ih 1, hmm, Nat.add_comm 1 j]

theorem fillLoop_cons_shift (computed : List Vec) (v : Vec) (es : List Vec)
    (ps : List Nat) (k : Nat) :
    fillLoop computed (v :: es) (ps.map (fun x => x + 1)) k =
      (fillLoop computed es ps k).map (fun r => v :: r) := by
  induction ps generalizing es v k with
  | nil => rfl
  | cons p rest ih =>
    simp only [List.map_cons, fillLoop]
    cases h : computed.get? k with
    | none => rfl
    | some w =>
      simpa [List.set_cons_succ] using ih v (es.set p w) (k + 1)

theorem fillLoop_error_of_short (computed : List Vec) (es : List Vec)
    (ps : List Nat) (k : Nat) (hne : ps ≠ [])
    (hshort : computed.length < k + ps.length) :
    fillLoop computed es ps k = .error "index out of bounds" := by
  induction ps generalizing es k with
  | nil => exact absurd rfl hne
  | cons p rest ih =>
    simp only [fillLoop]
    cases h : computed.get? k with
    | none => rfl
    | some w =>
      have hk : k < computed.length := by
        obtain ⟨hlt, _⟩ := List.get?_eq_some.mp h
        exact hlt
      cases rest with
      | nil => simp at hshort; omega
      | cons q rest2 =>
        exact ih (es.set p w) (k + 1) (by simp) (by simp at hshort ⊢; omega)

theorem fillLoop_partition (d : Nat) (computed : List Vec) (ts : List String) (k : Nat)
    (h : k + realCount ts ≤ computed.length) :
    fillLoop computed (partitionTexts d ts 0).1 (partitionTexts d ts 0).2.2 k =
      .ok (reassembleFrom d computed ts k) := by
  induction ts generalizing k with
  | nil => rfl
  | cons t ts ih =>
    by_cases hb : pyStrip t = ""
    · simp only [partitionTexts, hb, if_pos, partitionTexts_fst_shift d ts 1,
        partitionTexts_positions_shift d ts 1, reassembleFrom]
      rw [fillLoop_cons_shift, ih k (by simp [realCount, hb] at h; omega)]
      rfl
    · have hk : k < computed.length := by
        simp [realCount, hb] at h; omega
      simp only [partitionTexts, hb, if_neg, not_false_iff, ite_false,
        partitionTexts_fst_shift d ts 1, partitionTexts_positions_shift d ts 1,
        reassembleFrom, fillLoop]
      rw [List.get?_eq_getElem?, List.getElem?_eq_getElem hk]
      simp only [List.set_cons_zero]
      rw [fillLoop_cons_shift, ih (k + 1) (by simp [realCount, hb] at h; omega)]
      rw [List.getD_eq_getElem?_getD, List.getElem?_eq_getElem hk]
      rfl

theorem partitionTexts_fst_eq (d : Nat) (ts : List String) (i k : Nat) :
    (partitionTexts d ts i).1 = reassembleFrom d [] ts k := by
  induction ts generalizing i k with
  | nil => rfl
  | cons t ts ih =>
    by_cases h : pyStrip t = ""
    · simp [partitionTexts, reassembleFrom, h, ih (i + 1) k]
    · simp [partitionTexts, reassembleFrom, h, ih (i + 1) (k + 1)]

theorem reassembleFrom_length (d : Nat) (computed : List Vec) (ts : List String) (k : Nat) :
    (reassembleFrom d computed ts k).length = ts.length := by
  induction ts generalizing k with
  | nil => rfl
  | cons t ts ih =>
    by_cases h : pyStrip t = "" <;> simp [reassembleFrom, h, ih]

theorem reassembleFrom_getD (d : Nat) (computed : List Vec) (ts : List String)
    (k i : Nat) (hi : i < ts.length) :
    (reassembleFrom d computed ts k).getD i [] =
      if pyStrip (ts.getD i "") = "" then sentinelVec d
      else computed.getD (k + realCount (ts.take i)) [] := by
  induction ts generalizing i k with
  | nil => simp at hi
  | cons t ts ih =>
    cases i with
    | zero =>
      by_cases h : pyStrip t = "" <;> simp [reassembleFrom, h, realCount]
    | succ i =>
      have hi2 : i < ts.length := by simpa using hi
      by_cases h : pyStrip t = ""
      · simp only [reassembleFrom, h, if_pos, List.getD_cons_succ, List.take_succ_cons,
          realCount, ite_true, Nat.zero_add]
        exact ih k i hi2
      · simp only [reassembleFrom, h, if_neg, not_false_iff, ite_false, List.getD_cons_succ,
          List.take_succ_cons, realCount]
        rw [ih (k + 1) i hi2, Nat.add_assoc]

theorem reassembleFrom_mem (d : Nat) (computed : List Vec) (ts : List String) (k : Nat)
    (h : k + realCount ts ≤ computed.length) :
    ∀ v ∈ reassembleFrom d computed ts k, v = sentinelVec d ∨ v ∈ computed := by
  induction ts generalizing k with
  | nil => simp [reassembleFrom]
  | cons t ts ih =>
    by_cases hb : pyStrip t = ""
    · simp only [reassembleFrom, hb, if_pos, List.mem_cons]
      rintro v (rfl | hv)
      · exact Or.inl rfl
      · exact ih k (by simp [realCount, hb] at h; omega) v hv
    · have hk : k < computed.length := by simp [realCount, hb] at h; omega
      simp only [reassembleFrom, hb, if_neg, not_false_iff, ite_false, List.mem_cons]
      rintro v (rfl | hv)
      · right
        rw [List.getD_eq_getElem?_getD, List.getElem?_eq_getElem hk]
        exact List.getElem_mem hk
      · exact ih (k + 1) (by simp [realCount, hb] at h; omega) v hv

theorem positions_spec (d : Nat) (ts : List String) (k : Nat)
    (hk : k < ((partitionTexts d ts 0).2.2).length) :
    ((partitionTexts d ts 0).2.2).getD k 0 < ts.length ∧
    pyStrip (ts.getD (((partitionTexts d ts 0).2.2).getD k 0) "") ≠ "" ∧
    realCount (ts.take (((partitionTexts d ts 0).2.2).getD k 0)) = k := by
  induction ts generalizing k with
  | nil => simp [partitionTexts] at hk
  | cons t ts ih =>
    have hmap : ∀ j, j < ((partitionTexts d ts 0).2.2).length →
        ((((partitionTexts d ts 0).2.2).map (fun x => x + 1)).getD j 0) =
          ((partitionTexts d ts 0).2.2).getD j 0 + 1 := by
      intro j hj
      rw [List.getD_eq_getElem?_getD, List.getD_eq_getElem?_getD, List.getElem?_map,
        List.getElem?_eq_getElem hj]
      rfl
    by_cases hb : pyStrip t = ""
    · simp only [partitionTexts, hb, if_pos, partitionTexts_positions_shift d ts 1] at hk ⊢
      simp only [List.length_map] at hk
      rw [hmap k hk]
      obtain ⟨h1, h2, h3⟩ := ih k hk
      refine ⟨by simpa using h1, by simpa using h2, ?_⟩
      rw [List.take_succ_cons]
      simp only [realCount, hb, ite_true]
      omega
    · simp only [partitionTexts, hb, if_neg, not_false_iff, ite_false,
        partitionTexts_positions_shift d ts 1] at hk ⊢
      cases k with
      | zero =>
        refine ⟨by simp, ?_, by simp [realCount]⟩
        simpa using hb
      | succ k =>
        simp only [List.length_cons, List.length_map, Nat.succ_lt_succ_iff] at hk
        rw [List.getD_cons_succ, hmap k hk]
        obtain ⟨h1, h2, h3⟩ := ih k hk
        refine ⟨by simpa using h1, by simpa using h2, ?_⟩
        rw [List.take_succ_cons]
        simp only [realCount, hb, ite_false, if_neg, not_false_iff]
        omega

/-! ### Characterization of the batch handler -/

theorem embed_batch_ok_of (m : GTEModel) (texts : List String) (computed : List Vec)
    (hne : (partitionTexts m.dimensions texts 0).2.1 ≠ [])
    (hb : m.batchFn (partitionTexts m.dimensions texts 0).2.1 = .ok computed)
    (hlen : realCount texts ≤ computed.length) :
    embed_batch (some m) ⟨texts⟩ =
      .ok { embeddings := reassembleFrom m.dimensions computed texts 0
            dims := m.dimensions
            model := m.model_name
            took_ms := 0 } := by
  have hie : ((partitionTexts m.dimensions texts 0).2.1).isEmpty = false :=
    List.isEmpty_eq_false.mpr hne
  have hfill := fillLoop_partition m.dimensions computed texts 0 (by omega)
  simp only [embed_batch, hie, Bool.false_eq_true, if_false, GTEModel.embed_batch, hb, hfill]

theorem embed_batch_adapter_error (m : GTEModel) (texts : List String) (e : String)
    (hne : (partitionTexts m.dimensions texts 0).2.1 ≠ [])
    (hb : m.batchFn (partitionTexts m.dimensions texts 0).2.1 = .error e) :
    embed_batch (some m) ⟨texts⟩ =
      .error ⟨500, "Failed to compute embeddings: " ++ e⟩ := by
  have hie : ((partitionTexts m.dimensions texts 0).2.1).isEmpty = false :=
    List.isEmpty_eq_false.mpr hne
  simp only [embed_batch, hie, Bool.false_eq_true, if_false, GTEModel.embed_batch, hb]

theorem embed_batch_short (m : GTEModel) (texts : List String) (computed : List Vec)
    (hne : (partitionTexts m.dimensions texts 0).2.1 ≠ [])
    (hb : m.batchFn (partitionTexts m.dimensions texts 0).2.1 = .ok computed)
    (hlen : computed.length < realCount texts) :
    embed_batch (some m) ⟨texts⟩ =
      .error ⟨500, "Failed to compute embeddings: index out of bounds"⟩ := by
  have hie : ((partitionTexts m.dimensions texts 0).2.1).isEmpty = false :=
    List.isEmpty_eq_false.mpr hne
  have hpne : (partitionTexts m.dimensions texts 0).2.2 ≠ [] := by
    intro heq
    have h1 := partitionTexts_positions_length m.dimensions texts 0
    have h2 := partitionTexts_to_compute_length m.dimensions texts 0
    rw [heq] at h1
    simp only [List.length_nil] at h1
    have : (partitionTexts m.dimensions texts 0).2.1 = [] := by
      apply List.eq_nil_of_length_eq_zero
      omega
    exact hne this
  have hfill := fillLoop_error_of_short computed (partitionTexts m.dimensions texts 0).1
    (partitionTexts m.dimensions texts 0).2.2 0 hpne
    (by rw [partitionTexts_positions_length]; omega)
  simp only [embed_batch, hie, Bool.false_eq_true, if_false, GTEModel.embed_batch, hb, hfill]
  rfl

theorem embed_batch_ok_inv (m : GTEModel) (texts : List String) (resp : BatchResponse)
    (h : embed_batch (some m) ⟨texts⟩ = .ok resp) :
    ∃ computed : List Vec,
      resp = { embeddings := reassembleFrom m.dimensions computed texts 0
               dims := m.dimensions
               model := m.model_name
               took_ms := 0 } ∧
      realCount texts ≤ computed.length ∧
      (((partitionTexts m.dimensions texts 0).2.1 = [] ∧ computed = []) ∨
        m.batchFn (partitionTexts m.dimensions texts 0).2.1 = .ok computed) := by
  by_cases hnil : (partitionTexts m.dimensions texts 0).2.1 = []
  · refine ⟨[], ?_, ?_, Or.inl ⟨hnil, rfl⟩⟩
    · have hie : ((partitionTexts m.dimensions texts 0).2.1).isEmpty = true :=
        List.isEmpty_iff.mpr hnil
      simp only [embed_batch, hie, if_true] at h
      cases h
      rw [partitionTexts_fst_eq m.dimensions texts 0 0]
    · have h2 := partitionTexts_to_compute_length m.dimensions texts 0
      rw [hnil] at h2
      simp at h2
      omega
  · cases hcomp : m.batchFn (partitionTexts m.dimensions texts 0).2.1 with
    | error e =>
      rw [embed_batch_adapter_error m texts e hnil hcomp] at h
      exact absurd h (by simp)
    | ok computed =>
      by_cases hlen : realCount texts ≤ computed.length
      · refine ⟨computed, ?_, hlen, Or.inr rfl⟩
        rw [embed_batch_ok_of m texts computed hnil hcomp hlen] at h
        cases h
        rfl
      · rw [embed_batch_short m texts computed hnil hcomp (by omega)] at h
        exact absurd h (by simp)

/-- C5: before startup completes (`_model = None`) the health check reports
`model = None` (not ready) with status `"ok"` and dims 768, as a pure
function of the model slot — no inference is invoked; after startup it
reports the loaded model's name and dims 768. -/
theorem health_readiness :
    health none = { status := "ok", model := none, dims := 768 } ∧
    ∀ m : GTEModel,
      health (some m) = { status := "ok", model := some m.model_name, dims := 768 } := by
  exact ⟨rfl, fun _m => rfl⟩

/-- C6: while the model is not loaded, both the single-embed and the
batch-embed handlers reject every request immediately with the 503
"Model not loaded" service-unavailable error, before any adapter
interaction. -/
theorem unloaded_rejects_immediately :
    ∀ (req : EmbedRequest) (breq : BatchRequest),
      embed none req = .error ⟨503, "Model not loaded"⟩ ∧
      embed_batch none breq = .error ⟨503, "Model not loaded"⟩ := by
  intro req breq
  exact ⟨rfl, rfl⟩

/-- C8: the adapter's `embed_batch`, applied to the empty input sequence,
returns the empty sequence immediately for every adapter — in particular
the result does not depend on the black-box batch pipeline, so the model is
not invoked. -/
theorem embed_batch_empty_input :
    ∀ m : GTEModel, m.embed_batch [] = .ok [] := by
  intro m
  rfl

/-- C9: the single-embed operation is deterministic — two successful calls
with the identical text on the same loaded model yield identical embedding
vectors. -/
theorem embed_deterministic (m : GTEModel) (t : String) (r₁ r₂ : EmbedResponse)
    (h₁ : embed (some m) ⟨t⟩ = .ok r₁) (h₂ : embed (some m) ⟨t⟩ = .ok r₂) :
    r₁.embedding = r₂.embedding := by
  rw [h₁] at h₂
  cases h₂
  rfl

/-- C9 witness: the determinism theorem applied to the demo model on
`"hello"`, whose two (identical) evaluations both succeed. -/
theorem embed_deterministic_witness :
    ∃ r : EmbedResponse, embed (some demoModel) ⟨"hello"⟩ = .ok r ∧
      r.embedding = r.embedding := by
  refine ⟨{ embedding := demoVec, dims := 768,
            model := "Alibaba-NLP/gte-multilingual-base", took_ms := 0 }, ?_, ?_⟩
  · rfl
  · exact embed_deterministic demoModel "hello" _ _ rfl rfl

/-- C1: for every non-empty batch request that succeeds, the batch-embed
operation returns exactly one embedding per input text
(`len(response.embeddings) == len(request.texts)`), and the embedding at
index i corresponds to input text i: the sentinel for blank texts, and the
adapter's vector at that text's rank among the real texts otherwise —
regardless of how many entries were empty versus real. -/
theorem batch_length_and_order (m : GTEModel) (texts : List String) (resp : BatchResponse)
    (_hne : texts ≠ []) (h : embed_batch (some m) ⟨texts⟩ = .ok resp) :
    resp.embeddings.length = texts.length ∧
    ∃ computed : List Vec,
      ∀ i, i < texts.length →
        resp.embeddings.getD i [] =
          if pyStrip (texts.getD i "") = "" then sentinelVec 768
          else computed.getD (realCount (texts.take i)) [] := by
  obtain ⟨computed, rfl, hlen, hor⟩ := embed_batch_ok_inv m texts resp h
  refine ⟨reassembleFrom_length _ _ _ _, computed, ?_⟩
  intro i hi
  have hr := reassembleFrom_getD m.dimensions computed texts 0 i hi
  simpa [GTEModel.dimensions] using hr

/-- C1 witness: the theorem applied to the demo model on the non-empty
batch `["", "hello"]`, which succeeds with exactly two embeddings. -/
theorem batch_length_and_order_witness :
    (["", "hello"] : List String) ≠ [] ∧
    ∃ resp : BatchResponse,
      embed_batch (some demoModel) ⟨["", "hello"]⟩ = .ok resp ∧
      resp.embeddings.length = 2 := by
  constructor
  · simp
  · refine ⟨_, rfl, ?_⟩
    have h := (batch_length_and_order demoModel ["", "hello"] _ (by simp) rfl).1
    simpa using h

/-- C2: the vectors returned by the adapter for the real sub-sequence are
distributed back to the original indices of the real entries in ascending
index order: the handler's successful output is the order-preserving merge
`reassembleFrom`, and the k-th stored real position receives exactly the
k-th computed vector. -/
theorem batch_kth_real_to_kth_index (m : GTEModel) (texts : List String) (computed : List Vec)
    (hne : (partitionTexts m.dimensions texts 0).2.1 ≠ [])
    (hb : m.batchFn (partitionTexts m.dimensions texts 0).2.1 = .ok computed)
    (hlen : realCount texts ≤ computed.length) :
    embed_batch (some m) ⟨texts⟩ =
      .ok { embeddings := reassembleFrom m.dimensions computed texts 0
            dims := m.dimensions
            model := m.model_name
            took_ms := 0 } ∧
    ∀ k, k < ((partitionTexts m.dimensions texts 0).2.2).length →
      (reassembleFrom m.dimensions computed texts 0).getD
          (((partitionTexts m.dimensions texts 0).2.2).getD k 0) [] =
        computed.getD k [] := by
  refine ⟨embed_batch_ok_of m texts computed hne hb hlen, ?_⟩
  intro k hk
  obtain ⟨h1, h2, h3⟩ := positions_spec m.dimensions texts k hk
  rw [reassembleFrom_getD m.dimensions computed texts 0 _ h1, if_neg h2, h3, Nat.zero_add]

/-- C2 witness: the spec's mixed-batch scenario — input
`["", "hello", "   ", "world"]` with adapter results `[vHello, vWorld]`
yields `[Sentinel, vHello, Sentinel, vWorld]` in that exact order. -/
theorem batch_kth_real_to_kth_index_witness :
    embed_batch (some mixedModel) ⟨["", "hello", "   ", "world"]⟩ =
      .ok { embeddings := [sentinelVec 768, vHello, sentinelVec 768, vWorld]
            dims := 768
            model := "Alibaba-NLP/gte-multilingual-base"
            took_ms := 0 } := by
  have h := batch_kth_real_to_kth_index mixedModel ["", "hello", "   ", "world"]
    [vHello, vWorld] (by decide) rfl (by decide)
  exact h.1.trans (by rfl)

/-- C3: the single-embed operation returns the sentinel empty vector for
blank (empty or whitespace-only) text without any adapter call (the result
is the same record for every choice of adapter functions), and for
non-blank text it returns exactly what the adapter produced — the vector
verbatim on success, or a computation-failed 500 error carrying the cause
text on failure.  In particular a computation failure is never turned into
a sentinel response: the sentinel path is decided strictly before the
adapter is consulted. -/
theorem embed_sentinel_policy (m : GTEModel) (t : String) :
    (pyStrip t = "" →
      ∀ f g, embed (some { model_name := m.model_name, embedFn := f, batchFn := g }) ⟨t⟩ =
        .ok { embedding := sentinelVec 768, dims := 768
              model := m.model_name, took_ms := 0 }) ∧
    (pyStrip t ≠ "" →
      (∀ v, m.embedFn t = .ok v →
        embed (some m) ⟨t⟩ =
          .ok { embedding := v, dims := 768, model := m.model_name, took_ms := 0 }) ∧
      (∀ e, m.embedFn t = .error e →
        embed (some m) ⟨t⟩ = .error ⟨500, "Failed to compute embedding: " ++ e⟩)) := by
  constructor
  · intro hb f g
    simp [embed, hb, GTEModel.dimensions]
  · intro hnb
    constructor
    · intro v hv
      simp [embed, GTEModel.embed, hnb, hv, GTEModel.dimensions]
    · intro e he
      simp [embed, GTEModel.embed, hnb, he]

/-- C3 witness: the theorem applied at the blank text `"  "` (sentinel, no
adapter call) and at `"hello"` on the failing model (error, not a
sentinel). -/
theorem embed_sentinel_policy_witness :
    pyStrip "  " = "" ∧
    embed (some demoModel) ⟨"  "⟩ =
      .ok { embedding := sentinelVec 768, dims := 768
            model := "Alibaba-NLP/gte-multilingual-base", took_ms := 0 } ∧
    pyStrip "hello" ≠ "" ∧
    embed (some failingModel) ⟨"hello"⟩ =
      .error ⟨500, "Failed to compute embedding: device fault"⟩ := by
  refine ⟨rfl, ?_, by decide, ?_⟩
  · exact (embed_sentinel_policy demoModel "  ").1 rfl demoModel.embedFn demoModel.batchFn
  · have h := ((embed_sentinel_policy failingModel "hello").2 (by decide)).2 "device fault" rfl
    exact h.trans (by rfl)

/-- C4: if the adapter call for the real entries of a batch fails, the
whole batch-embed operation fails atomically with the 500
computation-failed error carrying the underlying cause text, and no
response — in particular no partially filled embeddings array — is
returned. -/
theorem batch_adapter_failure_atomic (m : GTEModel) (texts : List String) (e : String)
    (hne : (partitionTexts m.dimensions texts 0).2.1 ≠ [])
    (hb : m.batchFn (partitionTexts m.dimensions texts 0).2.1 = .error e) :
    embed_batch (some m) ⟨texts⟩ =
      .error ⟨500, "Failed to compute embeddings: " ++ e⟩ ∧
    ∀ resp : BatchResponse, embed_batch (some m) ⟨texts⟩ ≠ .ok resp := by
  have h := embed_batch_adapter_error m texts e hne hb
  refine ⟨h, fun resp hok => ?_⟩
  rw [h] at hok
  exact absurd hok (by simp)

/-- C4 witness: the theorem applied to the always-failing model on the
batch `["hi"]`. -/
theorem batch_adapter_failure_atomic_witness :
    embed_batch (some failingModel) ⟨["hi"]⟩ =
      .error ⟨500, "Failed to compute embeddings: device fault"⟩ := by
  have h := batch_adapter_failure_atomic failingModel ["hi"] "device fault" (by decide) rfl
  exact h.1.trans (by rfl)

/-- C7: under the adapter's dimension contract (every vector the black-box
pipeline produces has width 768, spec §4.1), every successful response
carries vectors of exactly 768 = dims elements and reports `dims = 768`,
for both single-embed and batch-embed, regardless of input content. -/
theorem response_dims_invariant (m : GTEModel) (hm : m.WellDimmed) :
    (∀ (req : EmbedRequest) (r : EmbedResponse),
        embed (some m) req = .ok r → r.embedding.length = 768 ∧ r.dims = 768) ∧
    (∀ (breq : BatchRequest) (r : BatchResponse),
        embed_batch (some m) breq = .ok r →
          (∀ v ∈ r.embeddings, v.length = 768) ∧ r.dims = 768) := by
  constructor
  · intro req r h
    by_cases hb : pyStrip req.text = ""
    · simp only [embed, hb, if_pos] at h
      cases h
      refine ⟨?_, rfl⟩
      simpa [GTEModel.dimensions] using sentinelVec_length 768
    · cases he : m.embedFn req.text with
      | error e =>
        simp [embed, GTEModel.embed, hb, he] at h
      | ok v =>
        simp only [embed, GTEModel.embed, hb, he, ite_false, if_neg, not_false_iff,
          Except.ok.injEq] at h
        cases h
        exact ⟨hm.1 req.text v he, rfl⟩
  · intro breq r h
    obtain ⟨texts⟩ := breq
    obtain ⟨computed, rfl, hlen, hor⟩ := embed_batch_ok_inv m texts r h
    refine ⟨?_, rfl⟩
    intro v hv
    have hmem := reassembleFrom_mem m.dimensions computed texts 0 (by omega) v hv
    rcases hmem with hs | hc
    · rw [hs]
      simpa [GTEModel.dimensions] using sentinelVec_length 768
    · rcases hor with ⟨_, rfl⟩ | hok
      · simp at hc
      · exact hm.2 _ computed hok v hc

/-- C7 witness: the demo model satisfies the dimension contract, its
single-embed response on `"hello"` succeeds, and the theorem yields that
the returned vector has exactly 768 elements. -/
theorem response_dims_invariant_witness :
    demoModel.WellDimmed ∧
    embed (some demoModel) ⟨"hello"⟩ =
      .ok { embedding := demoVec, dims := 768
            model := "Alibaba-NLP/gte-multilingual-base", took_ms := 0 } ∧
    demoVec.length = 768 := by
  have hwd : demoModel.WellDimmed := by
    constructor
    · intro t v hv
      simp only [demoModel, Except.ok.injEq] at hv
      subst hv
      simp only [demoVec, List.length_replicate]
    · intro ts vs hvs v hv
      simp only [demoModel, Except.ok.injEq] at hvs
      subst hvs
      obtain ⟨t, _, rfl⟩ := List.mem_map.mp hv
      simp only [demoVec, List.length_replicate]
  refine ⟨hwd, rfl, ?_⟩
  exact ((response_dims_invariant demoModel hwd).1 ⟨"hello"⟩
    { embedding := demoVec, dims := 768
      model := "Alibaba-NLP/gte-multilingual-base", took_ms := 0 } rfl).1

/-- C10: provided the adapter returns at least one vector per real input,
the batch handler succeeds and every entry of the response is either the
sentinel (placed at a blank input) or one of the adapter's vectors — no
empty placeholder list survives; if the adapter returns fewer vectors than
real inputs, the fill loop indexes out of range and the request fails as a
500 computation error rather than returning a response containing an empty
`[]` entry. -/
theorem batch_placeholders_filled_or_fail (m : GTEModel) (texts : List String)
    (computed : List Vec)
    (hne : (partitionTexts m.dimensions texts 0).2.1 ≠ [])
    (hb : m.batchFn (partitionTexts m.dimensions texts 0).2.1 = .ok computed) :
    (realCount texts ≤ computed.length →
      ∃ resp : BatchResponse,
        embed_batch (some m) ⟨texts⟩ = .ok resp ∧
        ∀ v ∈ resp.embeddings, v = sentinelVec 768 ∨ v ∈ computed) ∧
    (computed.length < realCount texts →
      embed_batch (some m) ⟨texts⟩ =
        .error ⟨500, "Failed to compute embeddings: index out of bounds"⟩) := by
  constructor
  · intro hlen
    refine ⟨_, embed_batch_ok_of m texts computed hne hb hlen, ?_⟩
    intro v hv
    have hmem := reassembleFrom_mem m.dimensions computed texts 0 (by omega) v hv
    simpa [GTEModel.dimensions] using hmem
  · intro hlen
    exact embed_batch_short m texts computed hne hb hlen

/-- C10 witness: the theorem applied to the demo model (enough vectors:
every entry is sentinel or computed) and to the short model (too few
vectors: the request fails with the index-out-of-range computation
error). -/
theorem batch_placeholders_filled_or_fail_witness :
    (∃ resp : BatchResponse,
        embed_batch (some demoModel) ⟨["", "hi"]⟩ = .ok resp ∧
        ∀ v ∈ resp.embeddings, v = sentinelVec 768 ∨ v ∈ [demoVec]) ∧
    embed_batch (some shortModel) ⟨["", "hi"]⟩ =
      .error ⟨500, "Failed to compute embeddings: index out of bounds"⟩ := by
  constructor
  · exact (batch_placeholders_filled_or_fail demoModel ["", "hi"] [demoVec]
      (by decide) rfl).1 (by decide)
  · exact (batch_placeholders_filled_or_fail shortModel ["", "hi"] []
      (by decide) rfl).2 (by decide)
